import Mathlib

/-!
Shallow embedding of the annotation-layer renderer
(`src/display/annotation_layer.js` and the two unnamed variants of it) and of
the print-service polyfill, together with theorems about the frozen claims.

Conventions of the embedding:
* JavaScript numbers are modelled as rationals (`ℚ`); the arithmetic the code
  performs on them (subtraction, scaling by 2, comparison, min/max swaps) is
  exact, so no floating-point rounding is involved in any claim.
* A JavaScript value that may be `undefined`/`null` is an `Option`;
  JS string truthiness (`undefined`, `null` and `""` are falsy) is `strTruthy`.
* DOM elements are records of the style properties the code actually writes.
-/

namespace PdfJs

/-- JS truthiness of a string-valued field that may be absent: `undefined`,
`null` and the empty string are falsy, every other string is truthy. -/
def strTruthy : Option String → Bool
  | none => false
  | some s => s ≠ ""

/-- Truncation toward zero, the effect of the JS expression `x | 0` on the
(in-range) colour components the code feeds it. -/
def jsOr0 (q : ℚ) : ℤ := Int.tdiv q.num (q.den : ℤ)

/- `AnnotationType` constants from `shared/util.js`.  That file is not part
of this slice; the factory only compares `data.annotationType` against these
named constants, so any pairwise-distinct values give the same dispatch.  The
values below are the ones pdf.js uses. -/
namespace AnnotationType

def TEXT : ℕ := 1

def LINK : ℕ := 2

def FREETEXT : ℕ := 3

def LINE : ℕ := 4

def SQUARE : ℕ := 5

def CIRCLE : ℕ := 6

def POLYGON : ℕ := 7

def POLYLINE : ℕ := 8

def HIGHLIGHT : ℕ := 9

def UNDERLINE : ℕ := 10

def SQUIGGLY : ℕ := 11

def STRIKEOUT : ℕ := 12

def STAMP : ℕ := 13

def CARET : ℕ := 14

def INK : ℕ := 15

def POPUP : ℕ := 16

def FILEATTACHMENT : ℕ := 17

def WIDGET : ℕ := 20

end AnnotationType

/- `AnnotationBorderStyleType` constants from `shared/util.js`. -/
namespace AnnotationBorderStyleType

def SOLID : ℕ := 1

def DASHED : ℕ := 2

def BEVELED : ℕ := 3

def INSET : ℕ := 4

def UNDERLINE : ℕ := 5

end AnnotationBorderStyleType

/-- A four-entry rectangle array `[r0, r1, r2, r3]` as used for `data.rect`
and `page.view`. -/
structure PdfRect where
  e0 : ℚ
  e1 : ℚ
  e2 : ℚ
  e3 : ℚ
deriving DecidableEq, Repr

/-- Modelled from the spec: `Util.normalizeRect` lives in `shared/util.js`,
which is outside this slice.  It normalizes a rectangle so that the first
point is the lower-left one: the two x-entries are swapped when
`rect[0] > rect[2]` and the two y-entries when `rect[1] > rect[3]`. -/
def Util.normalizeRect (rect : PdfRect) : PdfRect :=
  let r1 := if rect.e0 > rect.e2 then { rect with e0 := rect.e2, e2 := rect.e0 } else rect
  if rect.e1 > rect.e3 then { r1 with e1 := rect.e3, e3 := rect.e1 } else r1

/-- An RGB colour triple (JS array of three numbers). -/
structure RGBColor where
  r : ℚ
  g : ℚ
  b : ℚ
deriving DecidableEq, Repr

/-- The truncated-integer colour triple produced by `Util.makeCssRgb`
(`shared/util.js` formats it as a CSS string; we keep the components). -/
def Util.makeCssRgb (r g b : ℤ) : ℤ × ℤ × ℤ := (r, g, b)

/-- `data.borderStyle`. -/
structure BorderStyleData where
  width : ℚ
  style : ℕ
  horizontalCornerRadius : ℚ
  verticalCornerRadius : ℚ
deriving DecidableEq, Repr

/-- The already-parsed annotation data handed to the layer (the fields of
`parameters.data` that the embedded code reads). -/
structure AnnotationData where
  id : String
  annotationType : ℕ
  fieldType : Option String
  fieldName : String
  fieldValue : Option String
  buttonValue : Option String
  radioButton : Bool
  checkBox : Bool
  hasAppearance : Bool
  hasPopup : Bool
  title : Option String
  contents : Option String
  rect : PdfRect
  borderStyle : BorderStyleData
  borderColor : Option RGBColor
  color : Option RGBColor
  parentType : Option String
  parentId : String
  readOnly : Bool
deriving DecidableEq, Repr

/-- `page` parameter: the code reads only `page.view[1]` and `page.view[3]`. -/
structure Page where
  view : PdfRect
deriving DecidableEq, Repr

/-- A 2d transform matrix `viewport.transform` (six entries). -/
structure Matrix6 where
  m0 : ℚ
  m1 : ℚ
  m2 : ℚ
  m3 : ℚ
  m4 : ℚ
  m5 : ℚ
deriving DecidableEq, Repr

/-- `viewport` parameter: the code reads only `viewport.transform`. -/
structure Viewport where
  transform : Matrix6
deriving DecidableEq, Repr

/-- A CSS border-style keyword value the code assigns. -/
inductive BorderCss where
  | solid
  | dashed
deriving DecidableEq, Repr

/-- The `section` container element built by `AnnotationElement._createContainer`:
the attributes and style properties the function writes.  `none` means the
property was never assigned. -/
structure Container where
  dataAnnotationId : String
  transform : Option Matrix6
  transformOrigin : Option (ℚ × ℚ)
  borderWidthCss : Option ℚ
  borderStyleCss : Option BorderCss
  borderBottomStyleCss : Option BorderCss
  borderRadiusCss : Option (ℚ × ℚ)
  borderColorCss : Option (ℤ × ℤ × ℤ)
  left : ℚ
  top : ℚ
  width : ℚ
  height : ℚ
  scaleAttr : Option ℚ
deriving DecidableEq, Repr

/-- `AnnotationElement._createContainer` as in `src/display/annotation_layer.js`
(lines 122-208; the variant in `unnamed/part_001` computes the identical
position and size and differs only in the border-style switch, see
`AnnotationElement.createContainerModern`). -/
def AnnotationElement.createContainer (data : AnnotationData) (page : Page)
    (viewport : Viewport) (ignoreBorder : Bool) : Container :=
  let width := data.rect.e2 - data.rect.e0
  let height := data.rect.e3 - data.rect.e1
  let rect := Util.normalizeRect
    ⟨data.rect.e0,
      page.view.e3 - data.rect.e1 + page.view.e1,
      data.rect.e2,
      page.view.e3 - data.rect.e3 + page.view.e1⟩
  if !ignoreBorder && decide (0 < data.borderStyle.width) && data.borderColor.isSome then
    let widthAdj :=
      if data.borderStyle.style ≠ AnnotationBorderStyleType.UNDERLINE then
        width - 2 * data.borderStyle.width
      else width
    let heightAdj :=
      if data.borderStyle.style ≠ AnnotationBorderStyleType.UNDERLINE then
        height - 2 * data.borderStyle.width
      else height
    let radiusCss :=
      if 0 < data.borderStyle.horizontalCornerRadius ∨
          0 < data.borderStyle.verticalCornerRadius then
        some (data.borderStyle.horizontalCornerRadius,
          data.borderStyle.verticalCornerRadius)
      else none
    let styleCss : Option BorderCss :=
      if data.borderStyle.style = AnnotationBorderStyleType.SOLID then some BorderCss.solid
      else if data.borderStyle.style = AnnotationBorderStyleType.DASHED then some BorderCss.dashed
      else none
    let bottomCss : Option BorderCss :=
      if data.borderStyle.style = AnnotationBorderStyleType.UNDERLINE then some BorderCss.solid
      else none
    let colorCss : Option (ℤ × ℤ × ℤ) :=
      match data.borderColor with
      | some c => some (Util.makeCssRgb (jsOr0 c.r) (jsOr0 c.g) (jsOr0 c.b))
      | none =>
        match data.color with
        | some c => some (Util.makeCssRgb (jsOr0 c.r) (jsOr0 c.g) (jsOr0 c.b))
        | none => none
    let widthCss : Option ℚ :=
      match data.borderColor, data.color with
      | none, none => some 0
      | _, _ => some data.borderStyle.width
    { dataAnnotationId := data.id
      transform := some viewport.transform
      transformOrigin := some (-rect.e0, -rect.e1)
      borderWidthCss := widthCss
      borderStyleCss := styleCss
      borderBottomStyleCss := bottomCss
      borderRadiusCss := radiusCss
      borderColorCss := colorCss
      left := rect.e0
      top := rect.e1
      width := widthAdj
      height := heightAdj
      scaleAttr := none }
  else
    { dataAnnotationId := data.id
      transform := some viewport.transform
      transformOrigin := some (-rect.e0, -rect.e1)
      borderWidthCss := none
      borderStyleCss := none
      borderBottomStyleCss := none
      borderRadiusCss := none
      borderColorCss := none
      left := rect.e0
      top := rect.e1
      width := width
      height := height
      scaleAttr := none }

/-- The `unnamed/part_001` variant of `_createContainer` (lines 444-527): the
same position and size computation; its border-style switch additionally maps
the INSET and BEVELED styles to a solid CSS border. -/
def AnnotationElement.createContainerModern (data : AnnotationData) (page : Page)
    (viewport : Viewport) (ignoreBorder : Bool) : Container :=
  let width := data.rect.e2 - data.rect.e0
  let height := data.rect.e3 - data.rect.e1
  let rect := Util.normalizeRect
    ⟨data.rect.e0,
      page.view.e3 - data.rect.e1 + page.view.e1,
      data.rect.e2,
      page.view.e3 - data.rect.e3 + page.view.e1⟩
  if !ignoreBorder && decide (0 < data.borderStyle.width) && data.borderColor.isSome then
    let widthAdj :=
      if data.borderStyle.style ≠ AnnotationBorderStyleType.UNDERLINE then
        width - 2 * data.borderStyle.width
      else width
    let heightAdj :=
      if data.borderStyle.style ≠ AnnotationBorderStyleType.UNDERLINE then
        height - 2 * data.borderStyle.width
      else height
    let radiusCss :=
      if 0 < data.borderStyle.horizontalCornerRadius ∨
          0 < data.borderStyle.verticalCornerRadius then
        some (data.borderStyle.horizontalCornerRadius,
          data.borderStyle.verticalCornerRadius)
      else none
    let styleCss : Option BorderCss :=
      if data.borderStyle.style = AnnotationBorderStyleType.SOLID ∨
          data.borderStyle.style = AnnotationBorderStyleType.INSET ∨
          data.borderStyle.style = AnnotationBorderStyleType.BEVELED then
        some BorderCss.solid
      else if data.borderStyle.style = AnnotationBorderStyleType.DASHED then some BorderCss.dashed
      else none
    let bottomCss : Option BorderCss :=
      if data.borderStyle.style = AnnotationBorderStyleType.UNDERLINE then some BorderCss.solid
      else none
    let colorCss : Option (ℤ × ℤ × ℤ) :=
      match data.borderColor with
      | some c => some (Util.makeCssRgb (jsOr0 c.r) (jsOr0 c.g) (jsOr0 c.b))
      | none =>
        match data.color with
        | some c => some (Util.makeCssRgb (jsOr0 c.r) (jsOr0 c.g) (jsOr0 c.b))
        | none => none
    let widthCss : Option ℚ :=
      match data.borderColor, data.color with
      | none, none => some 0
      | _, _ => some data.borderStyle.width
    { dataAnnotationId := data.id
      transform := some viewport.transform
      transformOrigin := some (-rect.e0, -rect.e1)
      borderWidthCss := widthCss
      borderStyleCss := styleCss
      borderBottomStyleCss := bottomCss
      borderRadiusCss := radiusCss
      borderColorCss := colorCss
      left := rect.e0
      top := rect.e1
      width := widthAdj
      height := heightAdj
      scaleAttr := none }
  else
    { dataAnnotationId := data.id
      transform := some viewport.transform
      transformOrigin := some (-rect.e0, -rect.e1)
      borderWidthCss := none
      borderStyleCss := none
      borderBottomStyleCss := none
      borderRadiusCss := none
      borderColorCss := none
      left := rect.e0
      top := rect.e1
      width := width
      height := height
      scaleAttr := none }

/-- The `unnamed/part_000` variant of `_createContainer` (lines 149-232): it
writes no transform; instead it multiplies left/top by the viewport scale
factors `transform[0]`/`transform[3]`, multiplies width/height likewise, and
records the horizontal scale in a `scale` attribute. -/
def AnnotationElement.createContainerScaled (data : AnnotationData) (page : Page)
    (viewport : Viewport) (ignoreBorder : Bool) : Container :=
  let width := data.rect.e2 - data.rect.e0
  let height := data.rect.e3 - data.rect.e1
  let rect := Util.normalizeRect
    ⟨data.rect.e0,
      page.view.e3 - data.rect.e1 + page.view.e1,
      data.rect.e2,
      page.view.e3 - data.rect.e3 + page.view.e1⟩
  let scaleX := viewport.transform.m0
  let scaleY := viewport.transform.m3
  if !ignoreBorder && decide (0 < data.borderStyle.width) && data.borderColor.isSome then
    let widthAdj :=
      if data.borderStyle.style ≠ AnnotationBorderStyleType.UNDERLINE then
        width - 2 * data.borderStyle.width
      else width
    let heightAdj :=
      if data.borderStyle.style ≠ AnnotationBorderStyleType.UNDERLINE then
        height - 2 * data.borderStyle.width
      else height
    let radiusCss :=
      if 0 < data.borderStyle.horizontalCornerRadius ∨
          0 < data.borderStyle.verticalCornerRadius then
        some (data.borderStyle.horizontalCornerRadius,
          data.borderStyle.verticalCornerRadius)
      else none
    let styleCss : Option BorderCss :=
      if data.borderStyle.style = AnnotationBorderStyleType.SOLID ∨
          data.borderStyle.style = AnnotationBorderStyleType.INSET ∨
          data.borderStyle.style = AnnotationBorderStyleType.BEVELED then
        some BorderCss.solid
      else if data.borderStyle.style = AnnotationBorderStyleType.DASHED then some BorderCss.dashed
      else none
    let bottomCss : Option BorderCss :=
      if data.borderStyle.style = AnnotationBorderStyleType.UNDERLINE then some BorderCss.solid
      else none
    let colorCss : Option (ℤ × ℤ × ℤ) :=
      match data.borderColor with
      | some c => some (Util.makeCssRgb (jsOr0 c.r) (jsOr0 c.g) (jsOr0 c.b))
      | none =>
        match data.color with
        | some c => some (Util.makeCssRgb (jsOr0 c.r) (jsOr0 c.g) (jsOr0 c.b))
        | none => none
    let widthCss : Option ℚ :=
      match data.borderColor, data.color with
      | none, none => some 0
      | _, _ => some data.borderStyle.width
    { dataAnnotationId := data.id
      transform := none
      transformOrigin := none
      borderWidthCss := widthCss
      borderStyleCss := styleCss
      borderBottomStyleCss := bottomCss
      borderRadiusCss := radiusCss
      borderColorCss := colorCss
      left := rect.e0 * scaleX
      top := rect.e1 * scaleY
      width := widthAdj * scaleX
      height := heightAdj * scaleY
      scaleAttr := some scaleX }
  else
    { dataAnnotationId := data.id
      transform := none
      transformOrigin := none
      borderWidthCss := none
      borderStyleCss := none
      borderBottomStyleCss := none
      borderRadiusCss := none
      borderColorCss := none
      left := rect.e0 * scaleX
      top := rect.e1 * scaleY
      width := width * scaleX
      height := height * scaleY
      scaleAttr := some scaleX }

/-- State-passing embedding of `_createContainer` for the frame claim about
`data.rect`: the annotation data is threaded through the call and returned
next to the container.  The source (`src/display/annotation_layer.js` lines
122-208 and the `unnamed/part_001` variant) reads `data.rect` into the fresh
local array it normalizes and never assigns to `data` — the comment at lines
130-131 records exactly that constraint (issue 6804) — so the returned data
is the received data. -/
def AnnotationElement.createContainerTracked (data : AnnotationData)
    (page : Page) (viewport : Viewport) (ignoreBorder : Bool) :
    Container × AnnotationData :=
  (AnnotationElement.createContainer data page viewport ignoreBorder, data)

/-- State-passing embedding of the `unnamed/part_001` variant of
`_createContainer`, as `AnnotationElement.createContainerTracked`. -/
def AnnotationElement.createContainerModernTracked (data : AnnotationData)
    (page : Page) (viewport : Viewport) (ignoreBorder : Bool) :
    Container × AnnotationData :=
  (AnnotationElement.createContainerModern data page viewport ignoreBorder, data)

/-- The rectangle of claim C3: `data.rect` with its y-coordinates flipped
through `page.view` and the result normalized with `Util.normalizeRect`
(this is the `rect` local of `_createContainer`). -/
def flippedRect (d : AnnotationData) (p : Page) : PdfRect :=
  Util.normalizeRect
    ⟨d.rect.e0,
      p.view.e3 - d.rect.e1 + p.view.e1,
      d.rect.e2,
      p.view.e3 - d.rect.e3 + p.view.e1⟩

/-- Claim C3's "a border is drawn": `ignoreBorder` false, a positive border
width, and a border colour present. -/
def borderDrawn (d : AnnotationData) (ignoreBorder : Bool) : Bool :=
  !ignoreBorder && decide (0 < d.borderStyle.width) && d.borderColor.isSome

/-- Claim C3's size-adjustment condition: a border is drawn and the border
style is not UNDERLINE. -/
def borderAdjust (d : AnnotationData) (ignoreBorder : Bool) : Bool :=
  borderDrawn d ignoreBorder &&
    decide (d.borderStyle.style ≠ AnnotationBorderStyleType.UNDERLINE)

/-- The subclass of `AnnotationElement` the factory instantiates. -/
inductive ElementKind where
  | link
  | text
  | textWidget
  | radioButtonWidget
  | checkboxWidget
  | choiceWidget
  | widget
  | popup
  | line
  | highlight
  | underline
  | squiggly
  | strikeOut
  | fileAttachment
  | generic
deriving DecidableEq, Repr

/-- An annotation element as produced by `AnnotationElementFactory.create`:
the subclass together with the `isRenderable` and `ignoreBorder` arguments its
constructor passes to the `AnnotationElement` base constructor. -/
structure AnnotationElementModel where
  kind : ElementKind
  isRenderable : Bool
  ignoreBorder : Bool
deriving DecidableEq, Repr

/-- `AnnotationElementFactory.create` from `src/display/annotation_layer.js`
(lines 41-94), combined with each subclass constructor's `isRenderable`
computation.  The `default` switch case returns a bare `AnnotationElement`,
whose `isRenderable` defaults to `false`; an unrecognized widget `fieldType`
(and a `Btn` that is neither radio button nor checkbox) yields a
`WidgetAnnotationElement`, which also leaves `isRenderable` at its default
`false`. -/
def AnnotationElementFactory.create (d : AnnotationData)
    (renderInteractiveForms : Bool) : AnnotationElementModel :=
  if d.annotationType = AnnotationType.LINK then
    ⟨ElementKind.link, true, false⟩
  else if d.annotationType = AnnotationType.TEXT then
    ⟨ElementKind.text, d.hasPopup || strTruthy d.title || strTruthy d.contents, false⟩
  else if d.annotationType = AnnotationType.WIDGET then
    if d.fieldType = some "Tx" then
      ⟨ElementKind.textWidget,
        renderInteractiveForms || (!d.hasAppearance && strTruthy d.fieldValue), false⟩
    else if d.fieldType = some "Btn" then
      if d.radioButton then
        ⟨ElementKind.radioButtonWidget, renderInteractiveForms, false⟩
      else if d.checkBox then
        ⟨ElementKind.checkboxWidget, renderInteractiveForms, false⟩
      else
        ⟨ElementKind.widget, false, false⟩
    else if d.fieldType = some "Ch" then
      ⟨ElementKind.choiceWidget, renderInteractiveForms, false⟩
    else
      ⟨ElementKind.widget, false, false⟩
  else if d.annotationType = AnnotationType.POPUP then
    ⟨ElementKind.popup, strTruthy d.title || strTruthy d.contents, false⟩
  else if d.annotationType = AnnotationType.LINE then
    ⟨ElementKind.line, d.hasPopup || strTruthy d.title || strTruthy d.contents, true⟩
  else if d.annotationType = AnnotationType.HIGHLIGHT then
    ⟨ElementKind.highlight, d.hasPopup || strTruthy d.title || strTruthy d.contents, true⟩
  else if d.annotationType = AnnotationType.UNDERLINE then
    ⟨ElementKind.underline, d.hasPopup || strTruthy d.title || strTruthy d.contents, true⟩
  else if d.annotationType = AnnotationType.SQUIGGLY then
    ⟨ElementKind.squiggly, d.hasPopup || strTruthy d.title || strTruthy d.contents, true⟩
  else if d.annotationType = AnnotationType.STRIKEOUT then
    ⟨ElementKind.strikeOut, d.hasPopup || strTruthy d.title || strTruthy d.contents, true⟩
  else if d.annotationType = AnnotationType.FILEATTACHMENT then
    ⟨ElementKind.fileAttachment, true, false⟩
  else
    ⟨ElementKind.generic, false, false⟩

/-- The recognized `annotationType` cases of the factory switch in
`src/display/annotation_layer.js`. -/
def AnnotationElementFactory.recognizedTypes : List ℕ :=
  [AnnotationType.LINK, AnnotationType.TEXT, AnnotationType.WIDGET,
    AnnotationType.POPUP, AnnotationType.LINE, AnnotationType.HIGHLIGHT,
    AnnotationType.UNDERLINE, AnnotationType.SQUIGGLY, AnnotationType.STRIKEOUT,
    AnnotationType.FILEATTACHMENT]

/-- The loop body of `AnnotationLayer.render`
(`src/display/annotation_layer.js` lines 1319-1341; the loops in
`unnamed/part_000` and `unnamed/part_001` append under the same condition):
null entries are skipped, an element is created for the rest, and
`element.render()` is appended to the layer div exactly when
`element.isRenderable` holds.  The result lists the children appended to the
layer div, in order. -/
def AnnotationLayer.renderChildren (renderInteractiveForms : Bool) :
    List (Option AnnotationData) → List (AnnotationData × AnnotationElementModel)
  | [] => []
  | none :: rest => AnnotationLayer.renderChildren renderInteractiveForms rest
  | some d :: rest =>
    let element := AnnotationElementFactory.create d renderInteractiveForms
    if element.isRenderable then
      (d, element) :: AnnotationLayer.renderChildren renderInteractiveForms rest
    else
      AnnotationLayer.renderChildren renderInteractiveForms rest

/-- One iteration of the popup-sorting loop of `AnnotationLayer.render` in
`unnamed/part_001` (lines 2533-2544): a null entry is skipped, a Popup
annotation is pushed onto `popupAnnotations`, anything else onto
`sortedAnnotations`. -/
def AnnotationLayer.sortStep (acc : List AnnotationData × List AnnotationData)
    (od : Option AnnotationData) : List AnnotationData × List AnnotationData :=
  match od with
  | none => acc
  | some d =>
    if d.annotationType = AnnotationType.POPUP then
      (acc.1, acc.2 ++ [d])
    else
      (acc.1 ++ [d], acc.2)

/-- The popup-sorting prelude of `AnnotationLayer.render` in
`unnamed/part_001` (lines 2528-2548): null entries are dropped, Popup
annotations are collected separately and appended after all the others. -/
def AnnotationLayer.sortAnnotations (anns : List (Option AnnotationData)) :
    List AnnotationData :=
  let pair := anns.foldl AnnotationLayer.sortStep ([], [])
  if pair.2.length ≠ 0 then pair.1 ++ pair.2 else pair.1

/-- The style of an element already present in the layer div, as far as
`AnnotationLayer.update` touches or preserves it. -/
structure ElementStyle where
  transform : Option Matrix6
  left : ℚ
  top : ℚ
  width : ℚ
  height : ℚ
deriving DecidableEq, Repr

/-- The styles of a descendant of a layer element, as far as the `part_000`
`AnnotationLayer.update` touches them with its `querySelectorAll('*')` loop:
`none` means the style is unset (the empty string, falsy in the JS `if`). -/
structure ChildStyle where
  fontSize : Option ℚ
  width : Option ℚ
  height : Option ℚ
  lineHeight : Option ℚ
deriving DecidableEq, Repr

/-- A child element of the layer div.  `scaleAttr` is the element's `scale`
attribute, which the `part_000` `_createContainer` always stores (modelled as
a required rational; a missing or zero scale would give non-finite styles in
JS, which the rationals cannot represent); `childStyles` are the styles of
its descendants in document order. -/
structure LayerElement where
  dataAnnotationId : String
  style : ElementStyle
  scaleAttr : ℚ
  childStyles : List ChildStyle
deriving DecidableEq, Repr

/-- The layer div: its children in DOM order and its `hidden` attribute. -/
structure LayerDiv where
  children : List LayerElement
  hidden : Bool
deriving DecidableEq, Repr

/-- The effect of `CustomStyle.setProp('transform', element, 'matrix(...)')`
on an element: its transform style becomes the given matrix, everything else
is untouched. -/
def updateTransform (e : LayerElement) (m : Matrix6) : LayerElement :=
  { e with style := { e.style with transform := some m } }

/-- One iteration of the `AnnotationLayer.update` loop
(`src/display/annotation_layer.js` lines 1350-1361):
`div.querySelector('[data-annotation-id=...]')` returns the first matching
element in DOM order, and only that element (when it exists) gets its
`transform` style set to the new viewport matrix. -/
def setTransformOnFirstMatch : List LayerElement → String → Matrix6 → List LayerElement
  | [], _, _ => []
  | e :: rest, i, m =>
    if e.dataAnnotationId = i then
      updateTransform e m :: rest
    else
      e :: setTransformOnFirstMatch rest i m

/-- The `data-annotation-id` attribute of the element at index `k` of a
children list, when that index exists. -/
def idAt (cs : List LayerElement) (k : ℕ) : Option String :=
  (cs[k]?).map fun e => e.dataAnnotationId

/-- `AnnotationLayer.update` from `src/display/annotation_layer.js`
(lines 1350-1361; `unnamed/part_001` lines 2578-2591 are the same logic): for
each annotation in the parameters, the first element whose
`data-annotation-id` matches gets its transform set to the new viewport
transform, and afterwards the `hidden` attribute is removed from the div. -/
def AnnotationLayer.update (div : LayerDiv) (anns : List AnnotationData)
    (viewport : Viewport) : LayerDiv :=
  { children :=
      anns.foldl (fun cs d => setTransformOnFirstMatch cs d.id viewport.transform)
        div.children
    hidden := false }

/-- The descendant-rescaling body of the `part_000` `AnnotationLayer.update`
(`unnamed/part_000` lines 2113-2132): fontSize, width and height, when set,
are divided by the old scale and multiplied by the new horizontal scale (the
source uses `scaleX` even for the height); lineHeight, when set, is replaced
by the element's new height style. -/
def rescaleChild (c : ChildStyle) (scale scaleX newHeight : ℚ) : ChildStyle :=
  { fontSize := c.fontSize.map fun v => v / scale * scaleX
    width := c.width.map fun v => v / scale * scaleX
    height := c.height.map fun v => v / scale * scaleX
    lineHeight := c.lineHeight.map fun _ => newHeight }

/-- The per-element body of the `part_000` `AnnotationLayer.update`
(`unnamed/part_000` lines 2097-2132): left/width are divided by the stored
`scale` attribute and multiplied by the new horizontal scale
(`transform[0]`), top/height likewise with the new vertical scale
(`transform[3]`), the `scale` attribute is set to the new horizontal scale,
and every descendant's styles are rescaled. -/
def rescaleElement (e : LayerElement) (scaleX scaleY : ℚ) : LayerElement :=
  let scale := e.scaleAttr
  let newLeft := e.style.left / scale * scaleX
  let newTop := e.style.top / scale * scaleY
  let newWidth := e.style.width / scale * scaleX
  let newHeight := e.style.height / scale * scaleY
  { e with
    style :=
      { e.style with
        left := newLeft, top := newTop, width := newWidth, height := newHeight }
    scaleAttr := scaleX
    childStyles := e.childStyles.map fun c => rescaleChild c scale scaleX newHeight }

/-- One iteration of the `part_000` `AnnotationLayer.update` loop
(`unnamed/part_000` lines 2092-2134): `querySelector` returns the first
element whose `data-annotation-id` matches, and only that element (when it
exists) is rescaled. -/
def rescaleOnFirstMatch : List LayerElement → String → ℚ → ℚ → List LayerElement
  | [], _, _, _ => []
  | e :: rest, i, scaleX, scaleY =>
    if e.dataAnnotationId = i then
      rescaleElement e scaleX scaleY :: rest
    else
      e :: rescaleOnFirstMatch rest i scaleX scaleY

/-- `AnnotationLayer.update` from `unnamed/part_000` (lines 2091-2137): for
each annotation in the parameters, the first element whose
`data-annotation-id` matches is rescaled from the stored `scale` attribute to
the new viewport scales, and afterwards the `hidden` attribute is removed
from the div. -/
def AnnotationLayer.updateScaled (div : LayerDiv) (anns : List AnnotationData)
    (viewport : Viewport) : LayerDiv :=
  { children :=
      anns.foldl
        (fun cs d =>
          rescaleOnFirstMatch cs d.id viewport.transform.m0 viewport.transform.m3)
        div.children
    hidden := false }

/-- State of a `PopupElement` after `render()`: the `pinned` flag and whether
the hide element (`wrapper` or `container`) carries the `hidden` attribute.
The z-index bookkeeping of `_show`/`_hide` is a presentational DOM detail and
is not part of the state. -/
structure PopupState where
  pinned : Bool
  hidden : Bool
deriving DecidableEq, Repr

/-- The state right after `PopupElement.render()`
(`src/display/annotation_layer.js` lines 966-1026): the constructor sets
`pinned = false` and `render` puts the `hidden` attribute on the hide
element. -/
def PopupElement.initialState : PopupState :=
  { pinned := false, hidden := true }

/-- `PopupElement._show` (lines 1067-1074): `pin` pins the popup, and the
`hidden` attribute is removed if present. -/
def PopupElement.show (pin : Bool) (st : PopupState) : PopupState :=
  let st1 := if pin then { st with pinned := true } else st
  if st1.hidden then { st1 with hidden := false } else st1

/-- `PopupElement._hide` (lines 1083-1091): `unpin` unpins the popup, and the
`hidden` attribute is set only when the popup is visible and not pinned
(after the possible unpinning). -/
def PopupElement.hide (unpin : Bool) (st : PopupState) : PopupState :=
  let st1 := if unpin then { st with pinned := false } else st
  if !st1.hidden && !st1.pinned then { st1 with hidden := true } else st1

/-- `PopupElement._toggle` (lines 1053-1059). -/
def PopupElement.toggle (st : PopupState) : PopupState :=
  if st.pinned then PopupElement.hide true st else PopupElement.show true st

/-- The popup operations reachable after `render`: the click handler
(`_toggle`), the mouseover handler (`_show(false)`), the mouseout handler
(`_hide(false)`) and the popup click handler (`_hide(true)`); `_show(true)`
and `_hide(true)` also occur inside `_toggle`. -/
inductive PopupOp where
  | show (pin : Bool)
  | hide (unpin : Bool)
  | toggle
deriving DecidableEq, Repr

/-- Apply one popup operation. -/
def PopupOp.apply (op : PopupOp) (st : PopupState) : PopupState :=
  match op with
  | PopupOp.show pin => PopupElement.show pin st
  | PopupOp.hide unpin => PopupElement.hide unpin st
  | PopupOp.toggle => PopupElement.toggle st

/-- The invariant of claim C9: a pinned popup never carries the `hidden`
attribute on its hide element. -/
def PopupState.pinnedVisible (st : PopupState) : Prop :=
  st.pinned = true → st.hidden = false

/-- Modelled from the spec: the `AnnotationStorage` class
(`annotation_storage.js`, imported by `unnamed/part_001` but not part of this
slice) is a key-value store of field values.  Only the truth value of a
stored entry matters to the widgets embedded here, so entries are booleans. -/
abbrev AnnotationStorage := List (String × Bool)

/-- Modelled from the spec: `AnnotationStorage.getOrCreateValue` returns the
value already stored under the key when one exists, and otherwise stores the
supplied default value and returns it. -/
def AnnotationStorage.getOrCreateValue (storage : AnnotationStorage)
    (key : String) (defaultValue : Bool) : Bool × AnnotationStorage :=
  match storage.lookup key with
  | some v => (v, storage)
  | none => (defaultValue, (key, defaultValue) :: storage)

/-- Modelled as the identity: `encodeURIComponent` is a host-provided JS
builtin; no claim depends on the encoding itself. -/
def encodeURIComponent (s : String) : String := s

/-- The `input` element a button widget renders: the properties the embedded
render methods write. -/
structure InputElement where
  name : String
  disabled : Bool
  typ : String
  checked : Bool
deriving DecidableEq, Repr

/-- `CheckboxWidgetAnnotationElement.render` from
`src/display/annotation_layer.js` (lines 581-611): the element is checked
exactly when `data.fieldValue` is truthy and is not the string `Off`. -/
def CheckboxWidgetAnnotationElement.render (d : AnnotationData) : InputElement :=
  { name := encodeURIComponent d.fieldName
    disabled := d.readOnly
    typ := "checkbox"
    checked := strTruthy d.fieldValue && d.fieldValue ≠ some "Off" }

/-- `RadioButtonWidgetAnnotationElement.render` from
`src/display/annotation_layer.js` (lines 613-641): the element is checked
exactly when `data.fieldValue === data.buttonValue`. -/
def RadioButtonWidgetAnnotationElement.render (d : AnnotationData) : InputElement :=
  { name := encodeURIComponent d.fieldName
    disabled := d.readOnly
    typ := "radio"
    checked := d.fieldValue = d.buttonValue }

/-- `CheckboxWidgetAnnotationElement.render` from `unnamed/part_001`
(lines 1058-1085): the checked state comes from
`storage.getOrCreateValue(id, data.fieldValue && data.fieldValue !== "Off")`,
so the fieldValue-derived boolean is the initial stored value.  Returns the
input element together with the storage after the call. -/
def CheckboxWidgetAnnotationElement.renderWithStorage (d : AnnotationData)
    (storage : AnnotationStorage) : InputElement × AnnotationStorage :=
  let value := storage.getOrCreateValue d.id
    (strTruthy d.fieldValue && d.fieldValue ≠ some "Off")
  ({ name := d.fieldName
     disabled := d.readOnly
     typ := "checkbox"
     checked := value.1 },
    value.2)

/-- `RadioButtonWidgetAnnotationElement.render` from `unnamed/part_001`
(lines 1189-1230): the checked state comes from
`storage.getOrCreateValue(id, data.fieldValue === data.buttonValue)`. -/
def RadioButtonWidgetAnnotationElement.renderWithStorage (d : AnnotationData)
    (storage : AnnotationStorage) : InputElement × AnnotationStorage :=
  let value := storage.getOrCreateValue d.id (d.fieldValue = d.buttonValue)
  ({ name := d.fieldName
     disabled := d.readOnly
     typ := "radio"
     checked := value.1 },
    value.2)

/-- The module-level state of the print-service polyfill (`unnamed/part_002`):
`activeService` holds the single active `PDFPrintService`, or is null.
Services are identified by the order of their creation (`ℕ` ids stand for JS
object identity); `nextServiceId` is the id the next created service gets. -/
structure PrintState where
  activeService : Option ℕ
  nextServiceId : ℕ
deriving DecidableEq, Repr

/-- `PDFPrintServiceFactory.instance.createPrintService` from
`unnamed/part_002` (lines 379-390): throws when a service is already active,
otherwise creates a new `PDFPrintService`, makes it the active service and
returns it. -/
def PDFPrintServiceFactory.createPrintService (st : PrintState) :
    Except String (ℕ × PrintState) :=
  if st.activeService.isSome then
    Except.error "The print service is created and active."
  else
    Except.ok (st.nextServiceId,
      { activeService := some st.nextServiceId
        nextServiceId := st.nextServiceId + 1 })

/-- The `active` getter of `PDFPrintService` (`unnamed/part_002` line 237):
`this === activeService`. -/
def PDFPrintService.active (svc : ℕ) (st : PrintState) : Bool :=
  st.activeService = some svc

/-- `PDFPrintService.throwIfInactive` (`unnamed/part_002` lines 244-248). -/
def PDFPrintService.throwIfInactive (svc : ℕ) (st : PrintState) :
    Except String Unit :=
  if PDFPrintService.active svc st then
    Except.ok ()
  else
    Except.error "This print request was cancelled or completed."

/-- `PDFPrintService.layout` (`unnamed/part_002` lines 46-80): it calls
`throwIfInactive` first; the rest of the method manipulates the DOM (page
style sheet), an external effect that cannot throw this error. -/
def PDFPrintService.layout (svc : ℕ) (st : PrintState) : Except String Unit :=
  (PDFPrintService.throwIfInactive svc st).bind fun _ => Except.ok ()

/-- `PDFPrintService.performPrint` (`unnamed/part_002` lines 196-235): it
calls `throwIfInactive` first; the rest wraps the host `window.print`. -/
def PDFPrintService.performPrint (svc : ℕ) (st : PrintState) : Except String Unit :=
  (PDFPrintService.throwIfInactive svc st).bind fun _ => Except.ok ()

/-- The `renderNextPage` loop inside `PDFPrintService.renderPages`
(`unnamed/part_002` lines 141-166): each per-page step begins with
`throwIfInactive` (both before scheduling the page and in the completion
callback), and the final step that resolves the promise also starts with the
guard.  `remaining` counts the pages still to render. -/
def PDFPrintService.renderNextPage (svc : ℕ) (st : PrintState) :
    ℕ → Except String Unit
  | 0 => (PDFPrintService.throwIfInactive svc st).bind fun _ => Except.ok ()
  | remaining + 1 =>
    (PDFPrintService.throwIfInactive svc st).bind fun _ =>
      PDFPrintService.renderNextPage svc st remaining

/-!
## Theorems
-/

/-- C1: for every array of annotation data passed to `AnnotationLayer.render`,
a child element is appended to the layer div for exactly those entries that
are non-null and whose constructed annotation element has `isRenderable`
true; null entries and non-renderable elements contribute no child to the
layer div.  The children list equals, entry for entry, the non-null inputs
filtered by the renderability of their constructed element. -/
theorem claimC1_render_appends_exactly_renderable
    (anns : List (Option AnnotationData)) (renderInteractiveForms : Bool) :
    AnnotationLayer.renderChildren renderInteractiveForms anns =
      (anns.reduceOption.filter
        (fun d => (AnnotationElementFactory.create d renderInteractiveForms).isRenderable)).map
        (fun d => (d, AnnotationElementFactory.create d renderInteractiveForms)) := by
  induction anns with
  | nil => rfl
  | cons od rest ih =>
    cases od with
    | none =>
      simpa [AnnotationLayer.renderChildren] using ih
    | some d =>
      by_cases h :
          (AnnotationElementFactory.create d renderInteractiveForms).isRenderable = true
      · simp [AnnotationLayer.renderChildren, h, ih]
      · simp [AnnotationLayer.renderChildren, h, ih]

/-- Helper for claim C8: the sorting loop of the `part_001`
`AnnotationLayer.render`, run from arbitrary accumulators, appends the
non-Popup entries to the first accumulator and the Popup entries to the
second, each in input order. -/
theorem sortStep_foldl_eq (anns : List (Option AnnotationData))
    (accS accP : List AnnotationData) :
    anns.foldl AnnotationLayer.sortStep (accS, accP) =
      (accS ++ anns.reduceOption.filter
          (fun d => !(decide (d.annotationType = AnnotationType.POPUP))),
        accP ++ anns.reduceOption.filter
          (fun d => decide (d.annotationType = AnnotationType.POPUP))) := by
  induction anns generalizing accS accP with
  | nil => simp
  | cons od rest ih =>
    cases od with
    | none =>
      simpa [AnnotationLayer.sortStep] using ih accS accP
    | some d =>
      by_cases h : d.annotationType = AnnotationType.POPUP
      · simp [AnnotationLayer.sortStep, h, ih]
      · simp [AnnotationLayer.sortStep, h, ih]

/-- C8: in the AnnotationStorage-based version of `AnnotationLayer.render`
(`unnamed/part_001`), the processed annotation list is the stable partition
of the non-null inputs: all non-Popup annotations first, then all Popup
annotations, the relative input order preserved within each group (so a
popup's parent element is already in the layer div when the popup renders). -/
theorem claimC8_render_popups_last (anns : List (Option AnnotationData)) :
    AnnotationLayer.sortAnnotations anns =
      anns.reduceOption.filter
          (fun d => !(decide (d.annotationType = AnnotationType.POPUP))) ++
        anns.reduceOption.filter
          (fun d => decide (d.annotationType = AnnotationType.POPUP)) := by
  unfold AnnotationLayer.sortAnnotations
  rw [sortStep_foldl_eq]
  by_cases h :
      (anns.reduceOption.filter
        (fun d => decide (d.annotationType = AnnotationType.POPUP))).length ≠ 0
  · simp [h]
  · simp only [not_not, List.length_eq_zero] at h
    simp [h]

/-- A baseline annotation data record for concrete instantiations. -/
def sampleData : AnnotationData :=
  { id := "a1"
    annotationType := 99
    fieldType := none
    fieldName := "field1"
    fieldValue := none
    buttonValue := none
    radioButton := false
    checkBox := false
    hasAppearance := false
    hasPopup := false
    title := none
    contents := none
    rect := ⟨0, 0, 10, 10⟩
    borderStyle :=
      { width := 0
        style := AnnotationBorderStyleType.SOLID
        horizontalCornerRadius := 0
        verticalCornerRadius := 0 }
    borderColor := none
    color := none
    parentType := none
    parentId := ""
    readOnly := false }

/-- C10: `AnnotationElementFactory.create` is total (it is a Lean function
into `AnnotationElementModel`, so it returns an element for every input); for
an `annotationType` outside the recognized set it returns the base
`AnnotationElement` with `isRenderable` false, for a widget `fieldType`
outside Tx/Btn/Ch it returns a `WidgetAnnotationElement` with `isRenderable`
false, and a non-renderable element contributes no child in
`AnnotationLayer.render`. -/
theorem claimC10_factory_total_defaults_not_renderable
    (d : AnnotationData) (renderInteractiveForms : Bool) :
    (d.annotationType ∉ AnnotationElementFactory.recognizedTypes →
      AnnotationElementFactory.create d renderInteractiveForms =
        ⟨ElementKind.generic, false, false⟩) ∧
    (d.annotationType = AnnotationType.WIDGET →
      d.fieldType ∉ ([some "Tx", some "Btn", some "Ch"] : List (Option String)) →
      AnnotationElementFactory.create d renderInteractiveForms =
        ⟨ElementKind.widget, false, false⟩) ∧
    ((AnnotationElementFactory.create d renderInteractiveForms).isRenderable = false →
      AnnotationLayer.renderChildren renderInteractiveForms [some d] = []) := by
  refine ⟨?_, ?_, ?_⟩
  · intro h
    simp [AnnotationElementFactory.recognizedTypes] at h
    obtain ⟨h1, h2, h3, h4, h5, h6, h7, h8, h9, h10⟩ := h
    simp [AnnotationElementFactory.create, h1, h2, h3, h4, h5, h6, h7, h8, h9, h10]
  · intro ht hf
    simp at hf
    obtain ⟨f1, f2, f3⟩ := hf
    simp [AnnotationElementFactory.create, ht, f1, f2, f3,
      AnnotationType.WIDGET, AnnotationType.LINK, AnnotationType.TEXT]
  · intro h
    simp [AnnotationLayer.renderChildren, h]

/-- Witness for C10 at concrete inputs: an annotation of unrecognized type 99
and a widget annotation with field type `Sig`. -/
theorem claimC10_witness :
    AnnotationElementFactory.create sampleData true =
        ⟨ElementKind.generic, false, false⟩ ∧
      AnnotationElementFactory.create
          { sampleData with
            annotationType := AnnotationType.WIDGET, fieldType := some "Sig" } true =
        ⟨ElementKind.widget, false, false⟩ ∧
      AnnotationLayer.renderChildren true [some sampleData] = [] :=
  ⟨(claimC10_factory_total_defaults_not_renderable sampleData true).1 (by decide),
    (claimC10_factory_total_defaults_not_renderable
      { sampleData with
        annotationType := AnnotationType.WIDGET, fieldType := some "Sig" } true).2.1
      (by decide) (by decide),
    (claimC10_factory_total_defaults_not_renderable sampleData true).2.2 (by decide)⟩

/-- C4: `_createContainer` never modifies `data.rect`: in the state-passing
embedding the annotation data comes back with the same `rect` (indeed the
same record), so repeated container creations for the same annotation data
compute the same container, in both the `annotation_layer.js` and the
`part_001` versions. -/
theorem claimC4_createContainer_preserves_rect
    (d : AnnotationData) (p : Page) (v : Viewport) (ib : Bool) :
    (AnnotationElement.createContainerTracked d p v ib).2.rect = d.rect ∧
      (AnnotationElement.createContainerModernTracked d p v ib).2.rect = d.rect ∧
      AnnotationElement.createContainer
          (AnnotationElement.createContainerTracked d p v ib).2 p v ib =
        AnnotationElement.createContainer d p v ib ∧
      AnnotationElement.createContainerModern
          (AnnotationElement.createContainerModernTracked d p v ib).2 p v ib =
        AnnotationElement.createContainerModern d p v ib :=
  ⟨rfl, rfl, rfl, rfl⟩

/-- C3 (amended): in the `annotation_layer.js` and `part_001` versions of
`_createContainer` the container is positioned at the flipped-and-normalized
rectangle (`style.left = rect[0]`, `style.top = rect[1]`) with
`width = data.rect[2] - data.rect[0]` and
`height = data.rect[3] - data.rect[1]`, each reduced by twice
`data.borderStyle.width` exactly when a border is drawn (`ignoreBorder`
false, border width positive, border colour present) and the border style is
not UNDERLINE; in the `part_000` version the same four quantities are each
additionally multiplied by the viewport scale factors (`transform[0]`
horizontally, `transform[3]` vertically). -/
theorem claimC3_amended_container_position
    (d : AnnotationData) (p : Page) (v : Viewport) (ib : Bool) :
    ((AnnotationElement.createContainer d p v ib).left = (flippedRect d p).e0 ∧
      (AnnotationElement.createContainer d p v ib).top = (flippedRect d p).e1 ∧
      (AnnotationElement.createContainer d p v ib).width =
        d.rect.e2 - d.rect.e0 -
          (if borderAdjust d ib then 2 * d.borderStyle.width else 0) ∧
      (AnnotationElement.createContainer d p v ib).height =
        d.rect.e3 - d.rect.e1 -
          (if borderAdjust d ib then 2 * d.borderStyle.width else 0)) ∧
    ((AnnotationElement.createContainerModern d p v ib).left = (flippedRect d p).e0 ∧
      (AnnotationElement.createContainerModern d p v ib).top = (flippedRect d p).e1 ∧
      (AnnotationElement.createContainerModern d p v ib).width =
        d.rect.e2 - d.rect.e0 -
          (if borderAdjust d ib then 2 * d.borderStyle.width else 0) ∧
      (AnnotationElement.createContainerModern d p v ib).height =
        d.rect.e3 - d.rect.e1 -
          (if borderAdjust d ib then 2 * d.borderStyle.width else 0)) ∧
    ((AnnotationElement.createContainerScaled d p v ib).left =
        (flippedRect d p).e0 * v.transform.m0 ∧
      (AnnotationElement.createContainerScaled d p v ib).top =
        (flippedRect d p).e1 * v.transform.m3 ∧
      (AnnotationElement.createContainerScaled d p v ib).width =
        (d.rect.e2 - d.rect.e0 -
          (if borderAdjust d ib then 2 * d.borderStyle.width else 0)) * v.transform.m0 ∧
      (AnnotationElement.createContainerScaled d p v ib).height =
        (d.rect.e3 - d.rect.e1 -
          (if borderAdjust d ib then 2 * d.borderStyle.width else 0)) * v.transform.m3) := by
  by_cases hb :
      (!ib && decide (0 < d.borderStyle.width) && d.borderColor.isSome) = true
  · by_cases hu : d.borderStyle.style ≠ AnnotationBorderStyleType.UNDERLINE
    · simp [AnnotationElement.createContainer, AnnotationElement.createContainerModern,
        AnnotationElement.createContainerScaled, flippedRect, borderAdjust, borderDrawn,
        hb, hu]
    · simp [AnnotationElement.createContainer, AnnotationElement.createContainerModern,
        AnnotationElement.createContainerScaled, flippedRect, borderAdjust, borderDrawn,
        hb, hu]
  · simp [AnnotationElement.createContainer, AnnotationElement.createContainerModern,
      AnnotationElement.createContainerScaled, flippedRect, borderAdjust, borderDrawn,
      hb]

/-- Counterexample for C3 as stated: in the `part_000` version of
`_createContainer` (cited by the claim), for the annotation whose rectangle
is `[10, 20, 30, 40]` on a `[0, 0, 100, 100]` page under a viewport with
scale 2, `style.left` is 20 while the flipped-and-normalized rectangle's
first entry is 10, so `style.left = rect[0]` fails. -/
theorem claimC3_counterexample :
    (AnnotationElement.createContainerScaled
        { sampleData with rect := ⟨10, 20, 30, 40⟩ }
        ⟨⟨0, 0, 100, 100⟩⟩ ⟨⟨2, 0, 0, 2, 0, 0⟩⟩ false).left ≠
      (flippedRect { sampleData with rect := ⟨10, 20, 30, 40⟩ }
        ⟨⟨0, 0, 100, 100⟩⟩).e0 := by
  norm_num [AnnotationElement.createContainerScaled, flippedRect,
    Util.normalizeRect, sampleData]

/-- C5: `createPrintService` throws whenever a print service is already
active, and otherwise creates a new `PDFPrintService`, makes it the single
active service and returns it; an active service is never silently
replaced (the error branch leaves the state untouched). -/
theorem claimC5_createPrintService_exclusive (st : PrintState) :
    (∀ s, st.activeService = some s →
      PDFPrintServiceFactory.createPrintService st =
        Except.error "The print service is created and active.") ∧
    (st.activeService = none →
      PDFPrintServiceFactory.createPrintService st =
        Except.ok (st.nextServiceId,
          { activeService := some st.nextServiceId
            nextServiceId := st.nextServiceId + 1 })) := by
  constructor
  · intro s hs
    simp [PDFPrintServiceFactory.createPrintService, hs]
  · intro h
    simp [PDFPrintServiceFactory.createPrintService, h]

/-- Witness for C5: with service 0 active the factory throws; with no active
service it returns a fresh service 0 and makes it active. -/
theorem claimC5_witness :
    PDFPrintServiceFactory.createPrintService ⟨some 0, 1⟩ =
        Except.error "The print service is created and active." ∧
      PDFPrintServiceFactory.createPrintService ⟨none, 0⟩ =
        Except.ok (0, ⟨some 0, 1⟩) :=
  ⟨(claimC5_createPrintService_exclusive ⟨some 0, 1⟩).1 0 rfl,
    (claimC5_createPrintService_exclusive ⟨none, 0⟩).2 rfl⟩

/-- Helper for C6: when the service is the active one, the per-page render
loop completes without throwing, whatever the page count. -/
theorem renderNextPage_ok_of_active (svc : ℕ) (st : PrintState)
    (h : PDFPrintService.active svc st = true) :
    ∀ n, PDFPrintService.renderNextPage svc st n = Except.ok () := by
  intro n
  induction n with
  | zero =>
    simp [PDFPrintService.renderNextPage, PDFPrintService.throwIfInactive, h,
      Except.bind]
  | succ n ih =>
    simp [PDFPrintService.renderNextPage, PDFPrintService.throwIfInactive, h,
      Except.bind, ih]

/-- C6: the operations guarded by `throwIfInactive` (`layout`, the per-page
rendering of `renderPages`, `performPrint`) throw the error
`This print request was cancelled or completed.` if and only if the instance
is not the currently active print service; when the instance is active,
`throwIfInactive` throws nothing. -/
theorem claimC6_throwIfInactive_iff_inactive (svc : ℕ) (st : PrintState) (n : ℕ) :
    (PDFPrintService.throwIfInactive svc st =
        Except.error "This print request was cancelled or completed." ↔
      PDFPrintService.active svc st = false) ∧
    (PDFPrintService.active svc st = true →
      PDFPrintService.throwIfInactive svc st = Except.ok ()) ∧
    (PDFPrintService.layout svc st =
        Except.error "This print request was cancelled or completed." ↔
      PDFPrintService.active svc st = false) ∧
    (PDFPrintService.performPrint svc st =
        Except.error "This print request was cancelled or completed." ↔
      PDFPrintService.active svc st = false) ∧
    (PDFPrintService.renderNextPage svc st n =
        Except.error "This print request was cancelled or completed." ↔
      PDFPrintService.active svc st = false) := by
  by_cases h : PDFPrintService.active svc st = true
  · have hok := renderNextPage_ok_of_active svc st h
    simp [PDFPrintService.throwIfInactive, PDFPrintService.layout,
      PDFPrintService.performPrint, h, hok n, Except.bind]
  · have h' : PDFPrintService.active svc st = false := by
      simpa using h
    cases n with
    | zero =>
      simp [PDFPrintService.throwIfInactive, PDFPrintService.layout,
        PDFPrintService.performPrint, PDFPrintService.renderNextPage, h',
        Except.bind]
    | succ n =>
      simp [PDFPrintService.throwIfInactive, PDFPrintService.layout,
        PDFPrintService.performPrint, PDFPrintService.renderNextPage, h',
        Except.bind]

/-- Witness for C6: with service 0 active, service 0's guard passes and
service 1's guard (and its three-page render loop) throws. -/
theorem claimC6_witness :
    PDFPrintService.throwIfInactive 0 ⟨some 0, 1⟩ = Except.ok () ∧
      PDFPrintService.throwIfInactive 1 ⟨some 0, 1⟩ =
        Except.error "This print request was cancelled or completed." ∧
      PDFPrintService.renderNextPage 1 ⟨some 0, 1⟩ 3 =
        Except.error "This print request was cancelled or completed." :=
  ⟨(claimC6_throwIfInactive_iff_inactive 0 ⟨some 0, 1⟩ 0).2.1 (by decide),
    (claimC6_throwIfInactive_iff_inactive 1 ⟨some 0, 1⟩ 0).1.mpr (by decide),
    (claimC6_throwIfInactive_iff_inactive 1 ⟨some 0, 1⟩ 3).2.2.2.2.mpr (by decide)⟩

/-- C7: a checkbox widget's input element is checked if and only if
`data.fieldValue` is set (truthy) and differs from the string `Off`; a radio
button widget's input element is checked if and only if
`data.fieldValue` equals `data.buttonValue`.  In the AnnotationStorage-based
versions (`unnamed/part_001`) the same holds when the storage has no entry
for the annotation id yet, and the fieldValue-derived boolean becomes the
initial stored value. -/
theorem claimC7_checkbox_radio_checked (d : AnnotationData)
    (storage : AnnotationStorage) :
    ((CheckboxWidgetAnnotationElement.render d).checked = true ↔
      (strTruthy d.fieldValue = true ∧ d.fieldValue ≠ some "Off")) ∧
    ((RadioButtonWidgetAnnotationElement.render d).checked = true ↔
      d.fieldValue = d.buttonValue) ∧
    (storage.lookup d.id = none →
      (((CheckboxWidgetAnnotationElement.renderWithStorage d storage).1.checked = true ↔
        (strTruthy d.fieldValue = true ∧ d.fieldValue ≠ some "Off")) ∧
      (CheckboxWidgetAnnotationElement.renderWithStorage d storage).2.lookup d.id =
        some (strTruthy d.fieldValue && decide (d.fieldValue ≠ some "Off")))) ∧
    (storage.lookup d.id = none →
      (((RadioButtonWidgetAnnotationElement.renderWithStorage d storage).1.checked = true ↔
        d.fieldValue = d.buttonValue) ∧
      (RadioButtonWidgetAnnotationElement.renderWithStorage d storage).2.lookup d.id =
        some (decide (d.fieldValue = d.buttonValue)))) := by
  refine ⟨?_, ?_, ?_, ?_⟩
  · simp [CheckboxWidgetAnnotationElement.render]
  · simp [RadioButtonWidgetAnnotationElement.render]
  · intro h
    constructor
    · simp [CheckboxWidgetAnnotationElement.renderWithStorage,
        AnnotationStorage.getOrCreateValue, h]
    · simp [CheckboxWidgetAnnotationElement.renderWithStorage,
        AnnotationStorage.getOrCreateValue, h, List.lookup]
  · intro h
    constructor
    · simp [RadioButtonWidgetAnnotationElement.renderWithStorage,
        AnnotationStorage.getOrCreateValue, h]
    · simp [RadioButtonWidgetAnnotationElement.renderWithStorage,
        AnnotationStorage.getOrCreateValue, h, List.lookup]

/-- Witness for C7: a checkbox with field value `On` is checked, a radio
button with field value equal to its button value is checked, and in the
storage versions (starting from an empty storage) the same values are checked
and stored. -/
theorem claimC7_witness :
    ((CheckboxWidgetAnnotationElement.render
        { sampleData with fieldValue := some "On" }).checked = true) ∧
      ((RadioButtonWidgetAnnotationElement.render
        { sampleData with fieldValue := some "1", buttonValue := some "1" }).checked = true) ∧
      ((CheckboxWidgetAnnotationElement.renderWithStorage
        { sampleData with fieldValue := some "On" } []).1.checked = true) ∧
      ((CheckboxWidgetAnnotationElement.renderWithStorage
          { sampleData with fieldValue := some "On" } []).2.lookup "a1" =
        some true) := by
  refine ⟨?_, ?_, ?_, ?_⟩
  · exact (claimC7_checkbox_radio_checked
      { sampleData with fieldValue := some "On" } []).1.mpr (by decide)
  · exact (claimC7_checkbox_radio_checked
      { sampleData with fieldValue := some "1", buttonValue := some "1" } []).2.1.mpr rfl
  · exact ((claimC7_checkbox_radio_checked
      { sampleData with fieldValue := some "On" } []).2.2.1 rfl).1.mpr (by decide)
  · have h := ((claimC7_checkbox_radio_checked
      { sampleData with fieldValue := some "On" } []).2.2.1 rfl).2
    simpa using h

/-- Helper for C9: each popup operation preserves the pinned-implies-visible
invariant. -/
theorem popupInv_apply (op : PopupOp) (st : PopupState)
    (h : st.pinnedVisible) : (PopupOp.apply op st).pinnedVisible := by
  rcases st with ⟨p, hd⟩
  rcases op with ⟨pin⟩ | ⟨unpin⟩ | _
  · cases pin <;> cases p <;> cases hd <;> revert h <;>
      simp [PopupOp.apply, PopupElement.show, PopupState.pinnedVisible]
  · cases unpin <;> cases p <;> cases hd <;> revert h <;>
      simp [PopupOp.apply, PopupElement.hide, PopupState.pinnedVisible]
  · cases p <;> cases hd <;> revert h <;>
      simp [PopupOp.apply, PopupElement.toggle, PopupElement.show,
        PopupElement.hide, PopupState.pinnedVisible]

/-- Helper for C9: the invariant is preserved by any sequence of popup
operations. -/
theorem popupInv_foldl (ops : List PopupOp) (st : PopupState)
    (h : st.pinnedVisible) :
    PopupState.pinnedVisible (ops.foldl (fun s o => PopupOp.apply o s) st) := by
  induction ops generalizing st with
  | nil => exact h
  | cons o rest ih => exact ih (PopupOp.apply o st) (popupInv_apply o st h)

/-- C9: after `PopupElement.render`, any sequence of `_show`, `_hide` and
`_toggle` preserves the invariant that a pinned popup's hide element never
carries the `hidden` attribute; `_hide` with `unpin` false (the mouseout
handler) never hides a pinned popup; and `_toggle` always flips the pinned
state. -/
theorem claimC9_popup_pinned_invariant :
    (∀ ops : List PopupOp,
      PopupState.pinnedVisible
        (ops.foldl (fun s o => PopupOp.apply o s) PopupElement.initialState)) ∧
    (∀ st : PopupState, st.pinned = true →
      (PopupElement.hide false st).hidden = st.hidden ∧
        (PopupElement.hide false st).pinned = true) ∧
    (∀ st : PopupState, (PopupElement.toggle st).pinned = !st.pinned) := by
  refine ⟨?_, ?_, ?_⟩
  · intro ops
    refine popupInv_foldl ops PopupElement.initialState ?_
    intro h
    simp [PopupElement.initialState] at h
  · intro st h
    rcases st with ⟨p, hd⟩
    simp only at h
    subst h
    cases hd <;> simp [PopupElement.hide]
  · intro st
    rcases st with ⟨p, hd⟩
    cases p <;> cases hd <;>
      simp [PopupElement.toggle, PopupElement.show, PopupElement.hide]

/-- Witness for C9: the invariant holds after the sequence toggle, mouseout
hide, mouseover show; a pinned visible popup stays visible under a mouseout
`_hide(false)`; toggling a pinned popup unpins it. -/
theorem claimC9_witness :
    PopupState.pinnedVisible
        (([PopupOp.toggle, PopupOp.hide false, PopupOp.show false]).foldl
          (fun s o => PopupOp.apply o s) PopupElement.initialState) ∧
      ((PopupElement.hide false ⟨true, false⟩).hidden =
          (⟨true, false⟩ : PopupState).hidden ∧
        (PopupElement.hide false ⟨true, false⟩).pinned = true) ∧
      (PopupElement.toggle ⟨true, false⟩).pinned =
        !(⟨true, false⟩ : PopupState).pinned :=
  ⟨claimC9_popup_pinned_invariant.1 [PopupOp.toggle, PopupOp.hide false, PopupOp.show false],
    claimC9_popup_pinned_invariant.2.1 ⟨true, false⟩ rfl,
    claimC9_popup_pinned_invariant.2.2 ⟨true, false⟩⟩

/-- Helper for C2: one update iteration changes no `data-annotation-id`. -/
theorem setTransform_idAt (cs : List LayerElement) (i : String) (m : Matrix6)
    (k : ℕ) : idAt (setTransformOnFirstMatch cs i m) k = idAt cs k := by
  induction cs generalizing k with
  | nil => simp [setTransformOnFirstMatch]
  | cons e rest ih =>
    by_cases h : e.dataAnnotationId = i
    · cases k <;> simp [setTransformOnFirstMatch, h, idAt, updateTransform]
    · cases k <;> simp [setTransformOnFirstMatch, h, idAt]
      exact ih _

/-- Helper for C2: the first element in DOM order whose id matches gets its
transform updated by one update iteration. -/
theorem setTransform_get_first (cs : List LayerElement) (i : String)
    (m : Matrix6) (k : ℕ) (e : LayerElement) (he : cs[k]? = some e)
    (hid : e.dataAnnotationId = i)
    (hfirst : ∀ j, j < k → idAt cs j ≠ some i) :
    (setTransformOnFirstMatch cs i m)[k]? = some (updateTransform e m) := by
  induction cs generalizing k with
  | nil => simp at he
  | cons a rest ih =>
    by_cases h : a.dataAnnotationId = i
    · cases k with
      | zero =>
        simp at he
        subst he
        simp [setTransformOnFirstMatch, h]
      | succ k =>
        exact absurd (by simp [idAt, h]) (hfirst 0 (Nat.succ_pos k))
    · cases k with
      | zero =>
        simp at he
        subst he
        exact absurd hid h
      | succ k =>
        simp only [List.getElem?_cons_succ] at he
        simp only [setTransformOnFirstMatch, if_neg h, List.getElem?_cons_succ]
        refine ih k he ?_
        intro j hj
        have := hfirst (j + 1) (Nat.succ_lt_succ hj)
        simpa [idAt] using this

/-- Helper for C2: an element whose id does not match is untouched by one
update iteration. -/
theorem setTransform_get_ne (cs : List LayerElement) (i : String)
    (m : Matrix6) (k : ℕ) (e : LayerElement) (he : cs[k]? = some e)
    (hne : e.dataAnnotationId ≠ i) :
    (setTransformOnFirstMatch cs i m)[k]? = some e := by
  induction cs generalizing k with
  | nil => simp at he
  | cons a rest ih =>
    by_cases h : a.dataAnnotationId = i
    · cases k with
      | zero =>
        simp at he
        subst he
        exact absurd h hne
      | succ k =>
        simp only [List.getElem?_cons_succ] at he
        simp [setTransformOnFirstMatch, h, he]
    · cases k with
      | zero =>
        simp at he
        subst he
        simp [setTransformOnFirstMatch, h]
      | succ k =>
        simp only [List.getElem?_cons_succ] at he
        simp only [setTransformOnFirstMatch, if_neg h, List.getElem?_cons_succ]
        exact ih k he

/-- Helper for C2: an element preceded by an earlier element with the same id
as the query is untouched by one update iteration (`querySelector` stops at
the first match). -/
theorem setTransform_get_later (cs : List LayerElement) (i : String)
    (m : Matrix6) (k : ℕ) (e : LayerElement) (he : cs[k]? = some e)
    (hearlier : ∃ j, j < k ∧ idAt cs j = some i) :
    (setTransformOnFirstMatch cs i m)[k]? = some e := by
  induction cs generalizing k with
  | nil => simp at he
  | cons a rest ih =>
    obtain ⟨j, hj, hjid⟩ := hearlier
    by_cases h : a.dataAnnotationId = i
    · cases k with
      | zero => exact absurd hj (Nat.not_lt_zero j)
      | succ k =>
        simp only [List.getElem?_cons_succ] at he
        simp [setTransformOnFirstMatch, h, he]
    · cases j with
      | zero =>
        have : a.dataAnnotationId = i := by simpa [idAt] using hjid
        exact absurd this h
      | succ j =>
        cases k with
        | zero => exact absurd hj (Nat.not_lt_zero _)
        | succ k =>
          simp only [List.getElem?_cons_succ] at he
          simp only [setTransformOnFirstMatch, if_neg h, List.getElem?_cons_succ]
          refine ih k he ⟨j, Nat.lt_of_succ_lt_succ hj, ?_⟩
          simpa [idAt] using hjid

/-- Helper for C2: characterization of the whole `update` loop.  For an
element at index `k`: if some annotation id matches it and no earlier element
shares its id, its transform is set to the new matrix; if no annotation
matches its id, or an earlier element shares its id, it is returned
unchanged. -/
theorem update_foldl_characterization (anns : List AnnotationData) (m : Matrix6) :
    ∀ (cs : List LayerElement) (k : ℕ) (e : LayerElement), cs[k]? = some e →
      (((∃ d ∈ anns, d.id = e.dataAnnotationId) ∧
          (∀ j, j < k → idAt cs j ≠ some e.dataAnnotationId)) →
        (anns.foldl (fun cs d => setTransformOnFirstMatch cs d.id m) cs)[k]? =
          some (updateTransform e m)) ∧
      ((∀ d ∈ anns, d.id ≠ e.dataAnnotationId) →
        (anns.foldl (fun cs d => setTransformOnFirstMatch cs d.id m) cs)[k]? =
          some e) ∧
      ((∃ j, j < k ∧ idAt cs j = some e.dataAnnotationId) →
        (anns.foldl (fun cs d => setTransformOnFirstMatch cs d.id m) cs)[k]? =
          some e) := by
  induction anns with
  | nil =>
    intro cs k e he
    refine ⟨?_, ?_, ?_⟩
    · rintro ⟨⟨d, hd, _⟩, _⟩
      exact absurd hd (List.not_mem_nil d)
    · intro _
      simpa using he
    · intro _
      simpa using he
  | cons a rest ih =>
    intro cs k e he
    refine ⟨?_, ?_, ?_⟩
    · rintro ⟨⟨d, hd, hdid⟩, hfirst⟩
      by_cases ha : a.id = e.dataAnnotationId
      · have h1 : (setTransformOnFirstMatch cs a.id m)[k]? =
            some (updateTransform e m) := by
          refine setTransform_get_first cs a.id m k e he ha.symm ?_
          intro j hj
          rw [ha]
          exact hfirst j hj
        have hfirst' : ∀ j, j < k →
            idAt (setTransformOnFirstMatch cs a.id m) j ≠
              some (updateTransform e m).dataAnnotationId := by
          intro j hj
          rw [setTransform_idAt]
          exact hfirst j hj
        by_cases hrest : ∃ d ∈ rest, d.id = (updateTransform e m).dataAnnotationId
        · have h2 := (ih (setTransformOnFirstMatch cs a.id m) k
            (updateTransform e m) h1).1 ⟨hrest, hfirst'⟩
          simpa [List.foldl_cons] using h2
        · push_neg at hrest
          have h2 := (ih (setTransformOnFirstMatch cs a.id m) k
            (updateTransform e m) h1).2.1 hrest
          simpa [List.foldl_cons] using h2
      · have h1 : (setTransformOnFirstMatch cs a.id m)[k]? = some e :=
          setTransform_get_ne cs a.id m k e he (fun hh => ha hh.symm)
        have hd' : d ∈ rest := by
          rcases List.mem_cons.mp hd with hda | hdr
          · exact absurd (hda ▸ hdid) ha
          · exact hdr
        have hfirst' : ∀ j, j < k →
            idAt (setTransformOnFirstMatch cs a.id m) j ≠
              some e.dataAnnotationId := by
          intro j hj
          rw [setTransform_idAt]
          exact hfirst j hj
        have h2 := (ih (setTransformOnFirstMatch cs a.id m) k e h1).1
          ⟨⟨d, hd', hdid⟩, hfirst'⟩
        simpa [List.foldl_cons] using h2
    · intro hall
      have ha : a.id ≠ e.dataAnnotationId := hall a (List.mem_cons_self a rest)
      have h1 : (setTransformOnFirstMatch cs a.id m)[k]? = some e :=
        setTransform_get_ne cs a.id m k e he (fun hh => ha hh.symm)
      have h2 := (ih (setTransformOnFirstMatch cs a.id m) k e h1).2.1
        (fun d hd => hall d (List.mem_cons_of_mem a hd))
      simpa [List.foldl_cons] using h2
    · rintro ⟨j, hj, hjid⟩
      have h1 : (setTransformOnFirstMatch cs a.id m)[k]? = some e := by
        by_cases ha : e.dataAnnotationId = a.id
        · exact setTransform_get_later cs a.id m k e he ⟨j, hj, ha ▸ hjid⟩
        · exact setTransform_get_ne cs a.id m k e he ha
      have h2 := (ih (setTransformOnFirstMatch cs a.id m) k e h1).2.2
        ⟨j, hj, by rw [setTransform_idAt]; exact hjid⟩
      simpa [List.foldl_cons] using h2

/-- Helper for C2: rescaling preserves the `data-annotation-id`. -/
theorem rescaleElement_id (e : LayerElement) (sx sy : ℚ) :
    (rescaleElement e sx sy).dataAnnotationId = e.dataAnnotationId := rfl

/-- Helper for C2: one `part_000` update iteration changes no
`data-annotation-id`. -/
theorem rescale_idAt (cs : List LayerElement) (i : String) (sx sy : ℚ)
    (k : ℕ) : idAt (rescaleOnFirstMatch cs i sx sy) k = idAt cs k := by
  induction cs generalizing k with
  | nil => simp [rescaleOnFirstMatch]
  | cons e rest ih =>
    by_cases h : e.dataAnnotationId = i
    · cases k <;> simp [rescaleOnFirstMatch, h, idAt, rescaleElement]
    · cases k <;> simp [rescaleOnFirstMatch, h, idAt]
      exact ih _

/-- Helper for C2: the first element in DOM order whose id matches gets
rescaled by one `part_000` update iteration. -/
theorem rescale_get_first (cs : List LayerElement) (i : String) (sx sy : ℚ)
    (k : ℕ) (e : LayerElement) (he : cs[k]? = some e)
    (hid : e.dataAnnotationId = i)
    (hfirst : ∀ j, j < k → idAt cs j ≠ some i) :
    (rescaleOnFirstMatch cs i sx sy)[k]? = some (rescaleElement e sx sy) := by
  induction cs generalizing k with
  | nil => simp at he
  | cons a rest ih =>
    by_cases h : a.dataAnnotationId = i
    · cases k with
      | zero =>
        simp at he
        subst he
        simp [rescaleOnFirstMatch, h]
      | succ k =>
        exact absurd (by simp [idAt, h]) (hfirst 0 (Nat.succ_pos k))
    · cases k with
      | zero =>
        simp at he
        subst he
        exact absurd hid h
      | succ k =>
        simp only [List.getElem?_cons_succ] at he
        simp only [rescaleOnFirstMatch, if_neg h, List.getElem?_cons_succ]
        refine ih k he ?_
        intro j hj
        have := hfirst (j + 1) (Nat.succ_lt_succ hj)
        simpa [idAt] using this

/-- Helper for C2: an element whose id does not match is untouched by one
`part_000` update iteration. -/
theorem rescale_get_ne (cs : List LayerElement) (i : String) (sx sy : ℚ)
    (k : ℕ) (e : LayerElement) (he : cs[k]? = some e)
    (hne : e.dataAnnotationId ≠ i) :
    (rescaleOnFirstMatch cs i sx sy)[k]? = some e := by
  induction cs generalizing k with
  | nil => simp at he
  | cons a rest ih =>
    by_cases h : a.dataAnnotationId = i
    · cases k with
      | zero =>
        simp at he
        subst he
        exact absurd h hne
      | succ k =>
        simp only [List.getElem?_cons_succ] at he
        simp [rescaleOnFirstMatch, h, he]
    · cases k with
      | zero =>
        simp at he
        subst he
        simp [rescaleOnFirstMatch, h]
      | succ k =>
        simp only [List.getElem?_cons_succ] at he
        simp only [rescaleOnFirstMatch, if_neg h, List.getElem?_cons_succ]
        exact ih k he

/-- Helper for C2: an element preceded by an earlier element with the same id
as the query is untouched by one `part_000` update iteration. -/
theorem rescale_get_later (cs : List LayerElement) (i : String) (sx sy : ℚ)
    (k : ℕ) (e : LayerElement) (he : cs[k]? = some e)
    (hearlier : ∃ j, j < k ∧ idAt cs j = some i) :
    (rescaleOnFirstMatch cs i sx sy)[k]? = some e := by
  induction cs generalizing k with
  | nil => simp at he
  | cons a rest ih =>
    obtain ⟨j, hj, hjid⟩ := hearlier
    by_cases h : a.dataAnnotationId = i
    · cases k with
      | zero => exact absurd hj (Nat.not_lt_zero j)
      | succ k =>
        simp only [List.getElem?_cons_succ] at he
        simp [rescaleOnFirstMatch, h, he]
    · cases j with
      | zero =>
        have : a.dataAnnotationId = i := by simpa [idAt] using hjid
        exact absurd this h
      | succ j =>
        cases k with
        | zero => exact absurd hj (Nat.not_lt_zero _)
        | succ k =>
          simp only [List.getElem?_cons_succ] at he
          simp only [rescaleOnFirstMatch, if_neg h, List.getElem?_cons_succ]
          refine ih k he ⟨j, Nat.lt_of_succ_lt_succ hj, ?_⟩
          simpa [idAt] using hjid

/-- Helper for C2: characterization of the whole `part_000` update loop.  For
an element at index `k`: if exactly one annotation id matches it and no
earlier element shares its id, it is rescaled once (the rescaling is not
idempotent, so a repeated annotation id would rescale it again); if no
annotation matches its id, or an earlier element shares its id, it is
returned unchanged. -/
theorem updateScaled_foldl_characterization (anns : List AnnotationData)
    (sx sy : ℚ) :
    ∀ (cs : List LayerElement) (k : ℕ) (e : LayerElement), cs[k]? = some e →
      ((anns.countP (fun d => d.id == e.dataAnnotationId) = 1 ∧
          (∀ j, j < k → idAt cs j ≠ some e.dataAnnotationId)) →
        (anns.foldl (fun cs d => rescaleOnFirstMatch cs d.id sx sy) cs)[k]? =
          some (rescaleElement e sx sy)) ∧
      ((∀ d ∈ anns, d.id ≠ e.dataAnnotationId) →
        (anns.foldl (fun cs d => rescaleOnFirstMatch cs d.id sx sy) cs)[k]? =
          some e) ∧
      ((∃ j, j < k ∧ idAt cs j = some e.dataAnnotationId) →
        (anns.foldl (fun cs d => rescaleOnFirstMatch cs d.id sx sy) cs)[k]? =
          some e) := by
  induction anns with
  | nil =>
    intro cs k e he
    refine ⟨?_, ?_, ?_⟩
    · rintro ⟨hcount, _⟩
      simp at hcount
    · intro _
      simpa using he
    · intro _
      simpa using he
  | cons a rest ih =>
    intro cs k e he
    refine ⟨?_, ?_, ?_⟩
    · rintro ⟨hcount, hfirst⟩
      by_cases ha : a.id = e.dataAnnotationId
      · have hz : rest.countP (fun d => d.id == e.dataAnnotationId) = 0 := by
          rw [List.countP_cons_of_pos _ _ (by simpa using ha)] at hcount
          omega
        have hrestne : ∀ d ∈ rest, d.id ≠ e.dataAnnotationId := by
          intro d hd
          have := List.countP_eq_zero.mp hz d hd
          simpa using this
        have h1 : (rescaleOnFirstMatch cs a.id sx sy)[k]? =
            some (rescaleElement e sx sy) := by
          refine rescale_get_first cs a.id sx sy k e he ha.symm ?_
          intro j hj
          rw [ha]
          exact hfirst j hj
        have h2 := (ih (rescaleOnFirstMatch cs a.id sx sy) k
          (rescaleElement e sx sy) h1).2.1
          (fun d hd => by rw [rescaleElement_id]; exact hrestne d hd)
        simpa [List.foldl_cons] using h2
      · have hcount' : rest.countP (fun d => d.id == e.dataAnnotationId) = 1 := by
          rwa [List.countP_cons_of_neg _ _ (by simpa using ha)] at hcount
        have h1 : (rescaleOnFirstMatch cs a.id sx sy)[k]? = some e :=
          rescale_get_ne cs a.id sx sy k e he (fun hh => ha hh.symm)
        have hfirst' : ∀ j, j < k →
            idAt (rescaleOnFirstMatch cs a.id sx sy) j ≠
              some e.dataAnnotationId := by
          intro j hj
          rw [rescale_idAt]
          exact hfirst j hj
        have h2 := (ih (rescaleOnFirstMatch cs a.id sx sy) k e h1).1
          ⟨hcount', hfirst'⟩
        simpa [List.foldl_cons] using h2
    · intro hall
      have ha : a.id ≠ e.dataAnnotationId := hall a (List.mem_cons_self a rest)
      have h1 : (rescaleOnFirstMatch cs a.id sx sy)[k]? = some e :=
        rescale_get_ne cs a.id sx sy k e he (fun hh => ha hh.symm)
      have h2 := (ih (rescaleOnFirstMatch cs a.id sx sy) k e h1).2.1
        (fun d hd => hall d (List.mem_cons_of_mem a hd))
      simpa [List.foldl_cons] using h2
    · rintro ⟨j, hj, hjid⟩
      have h1 : (rescaleOnFirstMatch cs a.id sx sy)[k]? = some e := by
        by_cases ha : e.dataAnnotationId = a.id
        · exact rescale_get_later cs a.id sx sy k e he ⟨j, hj, ha ▸ hjid⟩
        · exact rescale_get_ne cs a.id sx sy k e he ha
      have h2 := (ih (rescaleOnFirstMatch cs a.id sx sy) k e h1).2.2
        ⟨j, hj, by rw [rescale_idAt]; exact hjid⟩
      simpa [List.foldl_cons] using h2

/-- C2 (amended): after `AnnotationLayer.update`, for each annotation in the
parameters the first element in DOM order whose `data-annotation-id` matches
its id gets its position/transform updated to the new viewport transform — in
the `annotation_layer.js` and `part_001` versions its transform style is set
to the new viewport matrix; in the `part_000` version (for an annotation id
not repeated in the parameters, the rescaling not being idempotent) its
left/top/width/height are rescaled from the stored `scale` attribute to the
new viewport scales, the `scale` attribute becomes the new horizontal scale,
and its descendants' styles are rescaled.  In every version, every element
whose id matches no annotation — and every element preceded by an earlier
element with the same id, since `querySelector` returns only the first
match — keeps all of its styles unchanged, and the `hidden` attribute is
removed from the layer div unconditionally. -/
theorem claimC2_amended_update_first_match (div : LayerDiv)
    (anns : List AnnotationData) (vp : Viewport) :
    ((AnnotationLayer.update div anns vp).hidden = false ∧
    ∀ (k : ℕ) (e : LayerElement), div.children[k]? = some e →
      (((∃ d ∈ anns, d.id = e.dataAnnotationId) ∧
          (∀ j, j < k → idAt div.children j ≠ some e.dataAnnotationId)) →
        (AnnotationLayer.update div anns vp).children[k]? =
          some (updateTransform e vp.transform)) ∧
      ((∀ d ∈ anns, d.id ≠ e.dataAnnotationId) →
        (AnnotationLayer.update div anns vp).children[k]? = some e) ∧
      ((∃ j, j < k ∧ idAt div.children j = some e.dataAnnotationId) →
        (AnnotationLayer.update div anns vp).children[k]? = some e)) ∧
    ((AnnotationLayer.updateScaled div anns vp).hidden = false ∧
    ∀ (k : ℕ) (e : LayerElement), div.children[k]? = some e →
      ((anns.countP (fun d => d.id == e.dataAnnotationId) = 1 ∧
          (∀ j, j < k → idAt div.children j ≠ some e.dataAnnotationId)) →
        (AnnotationLayer.updateScaled div anns vp).children[k]? =
          some (rescaleElement e vp.transform.m0 vp.transform.m3)) ∧
      ((∀ d ∈ anns, d.id ≠ e.dataAnnotationId) →
        (AnnotationLayer.updateScaled div anns vp).children[k]? = some e) ∧
      ((∃ j, j < k ∧ idAt div.children j = some e.dataAnnotationId) →
        (AnnotationLayer.updateScaled div anns vp).children[k]? = some e)) := by
  constructor
  · refine ⟨rfl, ?_⟩
    intro k e he
    exact update_foldl_characterization anns vp.transform div.children k e he
  · refine ⟨rfl, ?_⟩
    intro k e he
    exact updateScaled_foldl_characterization anns vp.transform.m0 vp.transform.m3
      div.children k e he

/-- A style record with nothing set, for the C2 instantiations. -/
def cexStyle : ElementStyle :=
  { transform := none, left := 0, top := 0, width := 0, height := 0 }

/-- A layer element whose `data-annotation-id` is `a1`, as `sampleData`,
carrying scale attribute 1 and one descendant with a set font size. -/
def cexElemA1 : LayerElement :=
  { dataAnnotationId := "a1"
    style := cexStyle
    scaleAttr := 1
    childStyles := [⟨some 12, none, none, none⟩] }

/-- Witness for C2 (amended): in a div holding two elements with the same id
`a1`, updating with the annotation `a1` sets the first element's transform
(in the transform-based versions) or rescales it (in the `part_000` version),
leaves the second unchanged in both, and clears `hidden`. -/
theorem claimC2_witness :
    (AnnotationLayer.update ⟨[cexElemA1, cexElemA1], true⟩ [sampleData]
        ⟨⟨2, 0, 0, 2, 0, 0⟩⟩).hidden = false ∧
      (AnnotationLayer.update ⟨[cexElemA1, cexElemA1], true⟩ [sampleData]
          ⟨⟨2, 0, 0, 2, 0, 0⟩⟩).children[0]? =
        some (updateTransform cexElemA1 ⟨2, 0, 0, 2, 0, 0⟩) ∧
      (AnnotationLayer.update ⟨[cexElemA1, cexElemA1], true⟩ [sampleData]
          ⟨⟨2, 0, 0, 2, 0, 0⟩⟩).children[1]? = some cexElemA1 ∧
      (AnnotationLayer.updateScaled ⟨[cexElemA1, cexElemA1], true⟩ [sampleData]
          ⟨⟨2, 0, 0, 2, 0, 0⟩⟩).hidden = false ∧
      (AnnotationLayer.updateScaled ⟨[cexElemA1, cexElemA1], true⟩ [sampleData]
          ⟨⟨2, 0, 0, 2, 0, 0⟩⟩).children[0]? =
        some (rescaleElement cexElemA1 2 2) ∧
      (AnnotationLayer.updateScaled ⟨[cexElemA1, cexElemA1], true⟩ [sampleData]
          ⟨⟨2, 0, 0, 2, 0, 0⟩⟩).children[1]? = some cexElemA1 := by
  have h := claimC2_amended_update_first_match ⟨[cexElemA1, cexElemA1], true⟩
    [sampleData] ⟨⟨2, 0, 0, 2, 0, 0⟩⟩
  refine ⟨h.1.1, ?_, ?_, h.2.1, ?_, ?_⟩
  · refine (h.1.2 0 cexElemA1 rfl).1
      ⟨⟨sampleData, List.mem_singleton.mpr rfl, rfl⟩, ?_⟩
    intro j hj
    exact absurd hj (Nat.not_lt_zero j)
  · exact (h.1.2 1 cexElemA1 rfl).2.2 ⟨0, Nat.zero_lt_one, rfl⟩
  · refine (h.2.2 0 cexElemA1 rfl).1 ⟨by decide, ?_⟩
    intro j hj
    exact absurd hj (Nat.not_lt_zero j)
  · exact (h.2.2 1 cexElemA1 rfl).2.2 ⟨0, Nat.zero_lt_one, rfl⟩

/-- Counterexample for C2 as stated: in a layer div whose two children both
carry `data-annotation-id = a1`, after `AnnotationLayer.update` with an
annotation of id `a1` the second matching element does **not** get its
transform updated to the new viewport transform (`querySelector` returns only
the first match), so "every element whose id matches some annotation gets
updated" fails. -/
theorem claimC2_counterexample :
    (AnnotationLayer.update ⟨[cexElemA1, cexElemA1], true⟩ [sampleData]
        ⟨⟨2, 0, 0, 2, 0, 0⟩⟩).children[1]? = some cexElemA1 ∧
      cexElemA1.dataAnnotationId = sampleData.id ∧
      cexElemA1.style.transform ≠ some (⟨2, 0, 0, 2, 0, 0⟩ : Matrix6) := by
  refine ⟨rfl, rfl, ?_⟩
  simp [cexElemA1, cexStyle]

end PdfJs
